import Mathlib

/-!
Shallow embedding of `src/server.js` (trinity-broadcast-backend), covering the
broadcast controller (`POST /broadcast`, lines 209-290 and its pause/resume/stop
endpoints), the delivery-reliability helpers (`removeDeadJid`, `sendWithRetry`,
lines 162-181) and the `messages.upsert` inbound handler (lines 336-760):
dedup, directory update, greeting cooldown, admin broadcast command and the
menu state machine.  Machine integers of the source are JS doubles holding
timestamps and counters; they are modelled as `Nat`.  The transport
(`sock.sendMessage`, `sock.onWhatsApp`), timers and file writes are modelled as
an effect trace; the outcome of fallible transport calls is supplied by an
oracle, one Boolean per call site, exactly where the source has a
`try`/`catch`.
-/

set_option linter.unusedVariables false

namespace Trinity

/-- JS runtime errors surfaced by the embedding.  `referenceError x` models the
`ReferenceError` thrown when an identifier `x` that is not bound in the current
scope chain is evaluated. -/
inductive JsError where
  | referenceError (name : String)
  deriving Repr, DecidableEq

/-- One server-sent event written by the `POST /broadcast` handler:
`res.write("data: " + JSON.stringify(...))` at lines 273-275, 278-280 (per
target) and 286 (terminal). -/
inductive SseEvent where
  | progress (sent total : Nat) (jid : String) (success : Bool)
  | done (sent total : Nat)
  deriving Repr, DecidableEq

/-- Externally visible actions of the program: transport sends, timer sleeps,
liveness probes, file writes and SSE emissions.  `pruneUser` is the
`removeDeadJid` call (filter the directory and rewrite `users.json`,
lines 162-166); `writeUsersFile` is the new-user save at line 368. -/
inductive Effect where
  | sendText (jid text : String)
  | sendImage (jid caption : String)
  | sendDocument (jid fileName : String) (caption : Option String)
  | sleep (ms : Nat)
  | emit (ev : SseEvent)
  | pruneUser (jid : String)
  | writeUsersFile (users : List String)
  | writeGreetFile (g : List (String × Nat))
  | probe (jid : String)
  deriving Repr, DecidableEq

/-- Menu step of a session: JS `step` is `null`, `"MAIN_MENU"` or `"PRODUCTS"`. -/
inductive Step where
  | none
  | mainMenu
  | products
  deriving Repr, DecidableEq

/-- Per-recipient session state, `userState[jid]` (line 452). -/
structure Session where
  step : Step
  menuActive : Bool
  busy : Bool
  deriving Repr, DecidableEq

/-- The four text carriers of an inbound message (lines 355-360). -/
structure MsgContent where
  conversation : Option String
  extendedText : Option String
  imageCaption : Option String
  documentCaption : Option String
  deriving Repr, DecidableEq

/-- An inbound message as the `messages.upsert` handler reads it.
`remoteJid` stands for `msg.key.remoteJid || msg.key.participant` (line 341),
assumed supplied by the transport; `keyId = none` or `content = none` model a
missing `msg.key.id` / `msg.message` (line 339). -/
structure InboundMsg where
  keyId : Option String
  fromMe : Bool
  remoteJid : String
  content : Option MsgContent
  deriving Repr, DecidableEq

/-- The module-global mutable state of the bot: `users` (the Recipient
Directory, `users.json`), `greetingTimestamps` (`greetings.json`),
`processedMessages` (each entry paired with its insertion time, since its
scheduled deletion fires `DEDUP_RETENTION` ms later) and `userState`. -/
structure BotState where
  users : List String
  greetingTimestamps : List (String × Nat)
  processedMessages : List (String × Nat)
  userState : List (String × Session)
  deriving Repr, DecidableEq

/-- Outcomes of the fallible transport calls made while handling one inbound
event: `alive u` is the result of `isJidAlive(sock, u)` (which already folds
transport errors into `false`, lines 154-161), and `retryOutcome u i` is
whether the `i`-th `sock.sendMessage` attempt of `sendWithRetry` for `u`
succeeds. -/
structure Oracle where
  alive : String → Bool
  retryOutcome : String → Nat → Bool

/-- An inbound event with its arrival time (the value `Date.now()` has while
this event is handled). -/
structure TimedEvent where
  time : Nat
  notify : Bool
  msg : InboundMsg
  deriving Repr, DecidableEq

/-- Result of one `messages.upsert` handler invocation: either a normal return
or a thrown JS error.  In both cases the state mutations and effects performed
before the return/throw are kept, since the source mutates module globals in
place. -/
inductive HandlerResult where
  | ok (st : BotState) (fx : List Effect)
  | err (e : JsError) (st : BotState) (fx : List Effect)
  deriving Repr, DecidableEq

-- ====== constants of the source ======

/-- `ADMINS` (line 139). -/
def ADMINS : List String := ["917021217553@s.whatsapp.net", "222634629456125@lid"]

/-- `GREETING_COOLDOWN = 8 * 60 * 60 * 1000` ms (line 140). -/
def GREETING_COOLDOWN : Nat := 8 * 60 * 60 * 1000

/-- `MAX_RETRIES = 2` (line 151). -/
def MAX_RETRIES : Nat := 2

/-- The 2000 ms backoff between retry attempts (line 178). -/
def RETRY_BACKOFF_MS : Nat := 2000

/-- The 60000 ms retention of a processed message id (line 346). -/
def DEDUP_RETENTION : Nat := 60000

/-- Menu starter keywords (lines 389 and 453, two identical literal lists). -/
def menuStarters : List String := ["hi", "hii", "hiii", "hello", "menu", "start"]

/-- `validInputs` (line 470). -/
def validInputs : List String := ["0", "1", "2", "3", "4", "5", "6"]

-- ====== canned reply texts of the source ======

/-- Greeting message (lines 410-421). -/
def greetingText : String :=
  "Hello 👋 \nWelcome to *Trinity Electric Syndicate* ⚡\n📍 Mumbai\n\nWe are suppliers of: \n🔷 Switchgear\n🔷 Cables & Wires\n🔷 Panels & Electrical Accessories\n\nType *MENU / START / HI* to see options."

/-- Top-level menu (lines 455-466). -/
def mainMenuText : String :=
  "*Thanks for choosing us*\n\nPlease choose a menu reply with a number:\n\n1️⃣ Product Catalogue\n2️⃣ Get Price / Quotation\n3️⃣ Panel Accessories we provide\n4️⃣ Brands We Deal In\n5️⃣ Store Address & Timing\n6️⃣ Talk to a Human"

/-- Product catalogue sub-menu (lines 481-492). -/
def productMenuText : String :=
  "📦 *Product Catalogue*\n\nReply with a number:\n1️⃣ Switchgear & MCB\n2️⃣ Control Panel Accessories\n3️⃣ Industrial Cables\n4️⃣ Earthing & Lighting\n5️⃣ Timers & Smart Devices\n6️⃣ PVC Conduit Pipes\n◀️ Reply *MENU or HI* to open menu again."

/-- Quotation reply (lines 497-508). -/
def quoteText : String :=
  "💰 *Get Price / Quotation*\n\nPlease send:\n• Product name\n• Quantity\n• Brand (if any)\n\nOur team will reply shortly.\n\nReply *MENU or HI* to open menu again."

/-- Panel accessories reply (lines 512-523). -/
def accessoriesText : String :=
  "🧰 *Panel Accessories we provide*\n\n✔ Indicator Lamps\n✔ Push Buttons\n✔ Selector Switches\n✔ SMPS\n✔ Contactors & Relays\n✔ Cooling Fans & Filters\n\nReply *MENU or HI* to open menu again."

/-- Brands reply (lines 527-543). -/
def brandsText : String :=
  "🏷️ *Brands We Deal In*\n\n✔ SCHNEIDER\n✔ L&T\n✔ SIEMENS\n✔ DANFOSS\n✔ Havells\n✔ TEKNIC\n✔ POLYCAB\n✔ FINOLEX\n✔ SWITZER\n✔ INDFOS\n✔ WIKA\n✔ APAR\n\nReply *MENU or HI* to open menu again."

/-- Store address reply (lines 548-558). -/
def addressText : String :=
  "📍 *Store Address & Timing*\n\nTrinity Electric Syndicate\n154, Shamaldas Gandhi Marg, Kalbadevi Road, \nMumbai – 400002\n\n🕘 Mon–Sat: 10:00 AM – 7:00 PM\nSunday: Closed\n\nReply *MENU or HI* to open menu again."

/-- Talk-to-a-human reply (lines 563-570). -/
def humanText : String :=
  "👨‍💼 *Talk to a Human*\n\nPlease type your query.\nOur executive will connect shortly.\n\n\nReply *MENU or HI* to open menu again."

/-- Industrial cables reply (lines 652-662); the template literal keeps the
source indentation. -/
def cablesText : String :=
  "🔌 *Industrial Cables*\n\n    ✔ Copper / Aluminium\n    ✔ Armoured / Unarmoured\n    ✔ Control & Power Cables\n\n    We will Quote as per requirement as there are frequent changes in Raw material pricing.\n\n\n    Reply *MENU or HI* to open menu again."

/-- Earthing and lighting reply (lines 665-672). -/
def lightingText : String :=
  "💡 *Earthing & Lighting*\n\n    ✔ Earthing Electrodes\n    ✔ GI / Copper Strips\n    ✔ Industrial Lights\n\n    Reply *MENU or HI* to open menu again."

/-- Back-to-main-menu reply (line 755). -/
def backText : String := "⬅️ Back to Main Menu. Reply *MENU or HI*"

/-- Admin broadcast usage reply (line 431). -/
def usageText : String := "❌ Usage:\n/broadcast Your message here"

/-- Admin broadcast completion reply (line 447). -/
def broadcastDoneText : String := "✅ Broadcast completed"

/-- Admin broadcast announcement (line 436). -/
def broadcastAnnounce (n : Nat) : String :=
  "📢 Broadcasting to " ++ toString n ++ " users..."

/-- PDF bundle announcement (lines 599-601 and the analogous sites). -/
def bundleAnnounce (n : Nat) : String :=
  "📄 Please wait, I am sending " ++ toString n ++ " PDF(s)..."

/-- Catalogue files of PRODUCTS choice 1 (lines 578-595): (path, name). -/
def switchgearFiles : List (String × String) :=
  [("catalogs/legrant_switchgear_mcb.pdf", "Legrant_Switchgear.pdf"),
   ("catalogs/hager_switchgear_panel.pdf", "Hager_Switchgear.pdf"),
   ("catalogs/l&t_switchgear.pdf", "L&T_Switchgear.pdf"),
   ("catalogs/siemens_switchgear.pdf", "SIEMENS_Switchgear.pdf")]

/-- Catalogue files of PRODUCTS choice 2 (lines 619-628). -/
def controlPanelFiles : List (String × String) :=
  [("catalogs/l&t_control_panel.pdf", "L&T_Control_Panel.pdf"),
   ("catalogs/hager_switchgear_panel.pdf", "Hager_Control_Panel_Accessories.pdf")]

/-- Catalogue files of PRODUCTS choice 5 (lines 675-696). -/
def smartDeviceFiles : List (String × String) :=
  [("catalogs/agri_smart_devices.pdf", "AGRI_Smart_Devices.pdf"),
   ("catalogs/ohm_assisstant_brochure.pdf", "OHM_Assistant_Brochure.pdf"),
   ("catalogs/switzer_smart_switches.pdf", "Switzer_Pressure_Switches.pdf"),
   ("catalogs/eapl_smart_devices.pdf", "EAPL_Smart_Devices.pdf"),
   ("catalogs/schneider_smart_devices.pdf", "Schneider_Smart_Devices.pdf")]

/-- Catalogue files of PRODUCTS choice 6 (lines 720-729). -/
def pipeFiles : List (String × String) :=
  [("catalogs/blp_pipes.pdf", "BLP_PVC_Conduit_Pipes.pdf"),
   ("catalogs/precision_pipes.pdf", "Precision_PVC_Conduit_Pipes.pdf")]

-- ====== helper functions ======

/-- JS `String.prototype.toLowerCase`, character by character (the source
only ever compares ASCII keywords and digits). -/
def jsToLower (s : String) : String := String.mk (s.data.map Char.toLower)

/-- JS `String.prototype.trim`: strip leading and trailing whitespace. -/
def jsTrim (s : String) : String :=
  String.mk (((s.data.dropWhile Char.isWhitespace).reverse.dropWhile
    Char.isWhitespace).reverse)

/-- Does the first character list start with the second? -/
def listStartsWith : List Char → List Char → Bool
  | _, [] => true
  | [], _ :: _ => false
  | a :: as, b :: bs => a == b && listStartsWith as bs

/-- JS `String.prototype.startsWith`. -/
def jsStartsWith (s pat : String) : Bool := listStartsWith s.data pat.data

/-- JS `String.prototype.endsWith`. -/
def jsEndsWith (s pat : String) : Bool :=
  listStartsWith s.data.reverse pat.data.reverse

/-- JS `a || b || ... || ""` over possibly-missing strings: the first operand
that is present and non-empty (the empty string is falsy in JS), else `""`.
Used for the text extraction at lines 355-361 and 379-384. -/
def jsOrText : List (Option String) → String
  | [] => ""
  | Option.some s :: rest => if s = "" then jsOrText rest else s
  | Option.none :: rest => jsOrText rest

/-- `msg.message?.conversation || ...extendedTextMessage?.text ||
...imageMessage?.caption || ...documentMessage?.caption || ""`. -/
def msgText (c : MsgContent) : String :=
  jsOrText [c.conversation, c.extendedText, c.imageCaption, c.documentCaption]

/-- Read a key of a JS object modelled as an association list. -/
def lookupA {α : Type} (l : List (String × α)) (k : String) : Option α :=
  (l.find? fun p => p.1 == k).map (fun p => p.2)

/-- Assign a key of a JS object modelled as an association list:
overwrite if present, append otherwise. -/
def insertA {α : Type} (l : List (String × α)) (k : String) (v : α) :
    List (String × α) :=
  if l.any (fun p => p.1 == k) then
    l.map (fun p => if p.1 == k then (k, v) else p)
  else l ++ [(k, v)]

/-- `processedMessages.has(id)` at time `t`: an entry inserted at time `t0`
is present while `t < t0 + DEDUP_RETENTION`, since its deletion is scheduled
`DEDUP_RETENTION` ms after insertion (line 346). -/
def hasActiveId (pm : List (String × Nat)) (t : Nat) (id : String) : Bool :=
  pm.any fun p => p.1 == id && t < p.2 + DEDUP_RETENTION

/-- JS identifier evaluation against an explicit scope: an identifier that is
bound nowhere in the scope chain throws a `ReferenceError`. -/
def lookupIdent (scope : List (String × String)) (x : String) :
    Except JsError String :=
  match scope.find? (fun p => p.1 == x) with
  | Option.some p => Except.ok p.2
  | Option.none => Except.error (JsError.referenceError x)

/-- The string-valued bindings in scope at line 427 of the source (the admin
broadcast branch).  `message` (line 355) and `jid` (line 341) are in scope.
`text` is declared with `const` at line 379 INSIDE the greeting block
(lines 378-424) and is therefore block-scoped to it; no other binding of
`text` exists in the file or in the Node globals, so `text` is absent here.
Bindings of non-string values (`msg`, `sock`, `users`, ...) are irrelevant to
resolving `text` and are omitted. -/
def scope427 (jid message : String) : List (String × String) :=
  [("jid", jid), ("message", message)]

/-- JS `String.prototype.replace` with a string pattern: replaces only the
FIRST occurrence (line 428). -/
def replaceFirst (s pat repl : String) : String :=
  if pat = "" then repl ++ s
  else
    match s.splitOn pat with
    | [] => s
    | [x] => x
    | x :: rest => x ++ repl ++ String.intercalate pat rest

-- ====== delivery reliability subsystem ======

/-- `removeDeadJid` (lines 162-166): filter every occurrence of `jid` out of
the directory (the rewrite of `users.json` is the `pruneUser` effect at the
call sites). -/
def removeDeadJid (users : List String) (jid : String) : List String :=
  users.filter fun u => u != jid

/-- The new-user save (lines 366-370): append the sender to the directory and
rewrite `users.json` when it is a private, non-admin, non-self sender not
already present. -/
def saveNewUser (users : List String) (jid : String)
    (isPrivate isAdminSender fromMe : Bool) : List String × List Effect :=
  if isPrivate && !isAdminSender && !fromMe && !(users.contains jid) then
    (users ++ [jid], [Effect.writeUsersFile (users ++ [jid])])
  else (users, [])

/-- Result of a `sendWithRetry` call: return value, number of `sendMessage`
attempts made, the backoff waits performed (in ms), the directory after the
call, and the effect trace. -/
structure RetryResult where
  ok : Bool
  attempts : Nat
  waits : List Nat
  users : List String
  fx : List Effect
  deriving Repr, DecidableEq

/-- The `for (let attempt = 1; attempt <= MAX_RETRIES; attempt++)` body of
`sendWithRetry` (lines 168-180), over the outcomes of the remaining attempts.
On success return `true`; on a failure that is not the last attempt wait
`RETRY_BACKOFF_MS` and retry; on the last failure call `removeDeadJid` and
return `false`.  The `[]` case is the fall-through end of the JS loop (never
reached when started with `MAX_RETRIES ≥ 1` outcomes). -/
def sendWithRetryGo (jid text : String) (users : List String)
    (attempts : Nat) (waits : List Nat) (fx : List Effect) :
    List Bool → RetryResult
  | [] => ⟨false, attempts, waits, users, fx⟩
  | ok :: rest =>
    let fx1 := fx ++ [Effect.sendText jid text]
    if ok then ⟨true, attempts + 1, waits, users, fx1⟩
    else if rest.isEmpty then
      ⟨false, attempts + 1, waits, removeDeadJid users jid,
        fx1 ++ [Effect.pruneUser jid]⟩
    else
      sendWithRetryGo jid text users (attempts + 1) (waits ++ [RETRY_BACKOFF_MS])
        (fx1 ++ [Effect.sleep RETRY_BACKOFF_MS]) rest

/-- `sendWithRetry(sock, jid, text)` (lines 167-181); `outcome i` is whether
the `i`-th `sock.sendMessage` call (0-based) succeeds. -/
def sendWithRetry (outcome : Nat → Bool) (jid text : String)
    (users : List String) : RetryResult :=
  sendWithRetryGo jid text users 0 [] [] ((List.range MAX_RETRIES).map outcome)

/-- The admin broadcast loop (lines 439-445): iterate a snapshot of the
directory, skip the command sender, probe liveness, prune dead entries, else
send via `sendWithRetry`, and sleep 2500 ms between entries.  The directory
(second component) is threaded because `removeDeadJid` mutates it. -/
def adminBroadcastLoop (o : Oracle) (senderJid text : String) :
    List String → List String → List Effect × List String
  | [], users => ([], users)
  | u :: rest, users =>
    if u == senderJid then adminBroadcastLoop o senderJid text rest users
    else
      let (fx1, users1) :=
        if !(o.alive u) then ([Effect.pruneUser u], removeDeadJid users u)
        else
          let r := sendWithRetry (o.retryOutcome u) u text users
          (r.fx, r.users)
      let (restFx, users2) := adminBroadcastLoop o senderJid text rest users1
      (Effect.probe u :: fx1 ++ [Effect.sleep 2500] ++ restFx, users2)

/-- The admin broadcast branch body (lines 427-448).  Its first step,
line 428, evaluates the identifier `text`, which is not in scope there (see
`scope427`), so the branch throws; the remainder of the branch is translated
for completeness but is unreachable. -/
def adminBranch (o : Oracle) (jid message : String) (users : List String) :
    Except JsError (List Effect × List String) :=
  match lookupIdent (scope427 jid message) "text" with
  | Except.error e => Except.error e
  | Except.ok text =>
    let broadcastText := jsTrim (replaceFirst text "/broadcast" "")
    if broadcastText = "" then
      Except.ok ([Effect.sendText jid usageText], users)
    else
      let fx0 := [Effect.sendText jid (broadcastAnnounce users.length)]
      let (bfx, users1) := adminBroadcastLoop o jid broadcastText users users
      Except.ok (fx0 ++ bfx ++ [Effect.sendText jid broadcastDoneText], users1)

-- ====== greeting (lines 377-424) ======

/-- The greeting block body (lines 379-423), for a private, non-self inbound
event handled at time `t`.  Recomputes the normalized text from the content
(just as lines 379-386 recompute `text`/`message`); if it is a menu starter,
silently record the timestamp; else send the greeting exactly when no
timestamp is recorded, the recorded timestamp is `0` (falsy in JS), or the
cooldown has elapsed (`now - ts >= GREETING_COOLDOWN`; over `Nat` the
truncated subtraction gives the same Boolean as the JS signed comparison,
since the cooldown is positive).  Returns the new map and the effects. -/
def greetingStep (t : Nat) (jid : String) (content : MsgContent)
    (g : List (String × Nat)) : List (String × Nat) × List Effect :=
  let text := msgText content
  let message := jsTrim (jsToLower text)
  if menuStarters.contains message then
    let g1 := insertA g jid t
    (g1, [Effect.writeGreetFile g1])
  else
    match lookupA g jid with
    | Option.none =>
      let g1 := insertA g jid t
      (g1, [Effect.writeGreetFile g1, Effect.sendText jid greetingText])
    | Option.some ts =>
      if ts == 0 || decide (GREETING_COOLDOWN ≤ t - ts) then
        let g1 := insertA g jid t
        (g1, [Effect.writeGreetFile g1, Effect.sendText jid greetingText])
      else (g, [])

-- ====== menu state machine (lines 450-758) ======

/-- The announce-then-send-each-document bundle with the busy lock (for
example lines 597-615): the busy flag is set before the announcement and
cleared after the last document, so the session ends with `busy = false`. -/
def pdfBundleFx (jid : String) (files : List (String × String)) : List Effect :=
  Effect.sendText jid (bundleAnnounce files.length) ::
    files.foldr (fun f acc => Effect.sendDocument jid f.2 Option.none :: Effect.sleep 1500 :: acc) []

/-- The menu logic (lines 450-758) applied to the session of `jid` and the
normalized `message`.  Line 451 lazily creates the session; line 453 resets it
to MAIN_MENU on a starter keyword (the object literal drops `busy`, hence
`busy = false`); line 469 ignores input while the menu is inactive; lines
470-475 deactivate the menu on input outside `validInputs`; then the
MAIN_MENU and PRODUCTS switches dispatch.  A `validInputs` message with no
matching `case` (choice "0" in MAIN_MENU) falls through both switches and
changes nothing. -/
def menuLogic (jid : String) (sess : Option Session) (message : String) :
    Session × List Effect :=
  let s := sess.getD ⟨Step.none, false, false⟩
  if menuStarters.contains message then
    (⟨Step.mainMenu, true, false⟩, [Effect.sendText jid mainMenuText])
  else if !s.menuActive then (s, [])
  else if !(validInputs.contains message) then
    (⟨Step.none, false, s.busy⟩, [])
  else if s.step == Step.mainMenu then
    match message with
    | "1" => ({ s with step := Step.products }, [Effect.sendText jid productMenuText])
    | "2" => (⟨Step.none, false, s.busy⟩, [Effect.sendText jid quoteText])
    | "3" => (⟨Step.none, false, s.busy⟩, [Effect.sendText jid accessoriesText])
    | "4" => (⟨Step.none, false, s.busy⟩, [Effect.sendText jid brandsText])
    | "5" => (⟨Step.none, false, s.busy⟩, [Effect.sendText jid addressText])
    | "6" => (⟨Step.none, false, s.busy⟩, [Effect.sendText jid humanText])
    | _ => (s, [])
  else if s.step == Step.products then
    match message with
    | "1" => ({ s with busy := false }, pdfBundleFx jid switchgearFiles)
    | "2" => ({ s with busy := false }, pdfBundleFx jid controlPanelFiles)
    | "3" => (s, [Effect.sendText jid cablesText])
    | "4" => (s, [Effect.sendText jid lightingText])
    | "5" => ({ s with busy := false }, pdfBundleFx jid smartDeviceFiles)
    | "6" => ({ s with busy := false }, pdfBundleFx jid pipeFiles)
    | "0" => ({ s with step := Step.mainMenu }, [Effect.sendText jid backText])
    | _ => (s, [])
  else (s, [])

-- ====== the messages.upsert handler (lines 336-760) ======

/-- The `messages.upsert` handler for one inbound event arriving at time `t`,
with `notify = (type === "notify")`.  Follows the source top to bottom:
early returns (lines 337-339), dedup (344-346), private/admin classification
(348-352), text normalization (355-363), new-user save (366-370), self-echo
filter (373), the 1500 ms pause (375), the greeting block (377-424), the
admin broadcast branch (427-448, which throws: see `adminBranch`), and the
menu logic (450-758). -/
def handleUpsert (o : Oracle) (t : Nat) (st : BotState) (notify : Bool)
    (msg : InboundMsg) : HandlerResult :=
  if !notify then HandlerResult.ok st []
  else
    match msg.keyId, msg.content with
    | Option.none, _ => HandlerResult.ok st []
    | Option.some _, Option.none => HandlerResult.ok st []
    | Option.some id, Option.some content =>
      let jid := msg.remoteJid
      if hasActiveId st.processedMessages t id then HandlerResult.ok st []
      else
        let st := { st with processedMessages := st.processedMessages ++ [(id, t)] }
        let isPrivate := jsEndsWith jid "@s.whatsapp.net" || jsEndsWith jid "@c.us"
          || jsEndsWith jid "@lid"
        let isAdminSender := ADMINS.contains jid
        let message := jsTrim (jsToLower (msgText content))
        let (users1, fx1) := saveNewUser st.users jid isPrivate isAdminSender msg.fromMe
        let st := { st with users := users1 }
        if msg.fromMe && !(jsStartsWith message "/broadcast") then HandlerResult.ok st fx1
        else
          let fx2 := fx1 ++ [Effect.sleep 1500]
          let (st, fx3) :=
            if isPrivate && !msg.fromMe then
              let (g1, gfx) := greetingStep t jid content st.greetingTimestamps
              ({ st with greetingTimestamps := g1 }, fx2 ++ gfx)
            else (st, fx2)
          if isAdminSender && jsStartsWith message "/broadcast" then
            match adminBranch o jid message st.users with
            | Except.error e => HandlerResult.err e st fx3
            | Except.ok (afx, users2) =>
              HandlerResult.ok { st with users := users2 } (fx3 ++ afx)
          else
            let (sess1, mfx) := menuLogic jid (lookupA st.userState jid) message
            HandlerResult.ok { st with userState := insertA st.userState jid sess1 }
              (fx3 ++ mfx)

/-- One handler invocation, keeping state and effects also when it throws. -/
def stepEvent (o : Oracle) (st : BotState) (e : TimedEvent) :
    BotState × List Effect :=
  match handleUpsert o e.time st e.notify e.msg with
  | HandlerResult.ok st1 fx => (st1, fx)
  | HandlerResult.err _ st1 fx => (st1, fx)

/-- Process a list of inbound events in order, tagging every effect with the
time of the event whose handling produced it. -/
def runEvents (o : Oracle) (st : BotState) :
    List TimedEvent → BotState × List (Nat × Effect)
  | [] => (st, [])
  | e :: rest =>
    let p := stepEvent o st e
    let q := runEvents o p.1 rest
    (q.1, p.2.map (fun f => (e.time, f)) ++ q.2)

/-- Is this effect the greeting message being sent to `j`? -/
def isGreet (j : String) (f : Effect) : Bool :=
  f == Effect.sendText j greetingText

/-- The times at which a greeting was sent to `j` in a timed effect trace. -/
def greetTimes (j : String) (tfx : List (Nat × Effect)) : List Nat :=
  (tfx.filter fun p => isGreet j p.2).map fun p => p.1

-- ====== broadcast controller (POST /broadcast, lines 209-303) ======

/-- The payload of a broadcast request (line 221-223): optional text, optional
uploaded image with caption, optional uploaded PDF with caption and original
file name. -/
structure Payload where
  message : Option String
  image : Bool
  imageCaption : Option String
  pdf : Bool
  pdfCaption : Option String
  pdfName : String
  deriving Repr, DecidableEq

/-- The sends attempted for one target inside the `try` (lines 256-270), in
source order: text if `message` is truthy (JS skips an empty string), then
image, then document.  Captions default to `""`. -/
def payloadParts (p : Payload) (jid : String) : List Effect :=
  (match p.message with
    | Option.some m => if m = "" then [] else [Effect.sendText jid m]
    | Option.none => []) ++
  (if p.image then [Effect.sendImage jid (p.imageCaption.getD "")] else []) ++
  (if p.pdf then [Effect.sendDocument jid p.pdfName (Option.some (p.pdfCaption.getD ""))] else [])

/-- The per-target send loop (lines 251-284).  Dynamic behaviour is supplied
by oracles indexed by the 0-based loop iteration: `ok i` is whether iteration
`i`'s `try` block runs to completion, `cut i` is how many send calls of a
failing iteration completed before the throw, `polls i` is how many 500 ms
pause polls the iteration performed, and `stop i` is the value of the
`stopped` flag observed by the `if (stopped) break` check at the head of
iteration `i`.  Each completed-or-failed iteration increments `sent`, emits
one progress event, and sleeps the 1500 ms pacing delay.  Returns the effect
trace and the final `sent` counter. -/
def broadcastLoop (p : Payload) (ok : Nat → Bool) (cut polls : Nat → Nat)
    (stop : Nat → Bool) (total : Nat) :
    List String → Nat → Nat → List Effect × Nat
  | [], _, sent => ([], sent)
  | jid :: rest, i, sent =>
    if stop i then ([], sent)
    else
      let pauseFx := List.replicate (polls i) (Effect.sleep 500)
      let parts := payloadParts p jid
      let sendFx := if ok i then parts else parts.take (cut i)
      let sent1 := sent + 1
      let r := broadcastLoop p ok cut polls stop total rest (i + 1) sent1
      (pauseFx ++ sendFx
        ++ [Effect.emit (SseEvent.progress sent1 total jid (ok i)), Effect.sleep 1500]
        ++ r.1, r.2)

/-- A full (started) broadcast run: the loop over the resolved target list
followed by the terminal event (line 286). -/
def broadcastRun (p : Payload) (ok : Nat → Bool) (cut polls : Nat → Nat)
    (stop : Nat → Bool) (targets : List String) : List Effect × Nat :=
  let r := broadcastLoop p ok cut polls stop targets.length targets 0 0
  (r.1 ++ [Effect.emit (SseEvent.done r.2 targets.length)], r.2)

/-- Outcome of a `POST /broadcast` request. -/
inductive StartOutcome where
  | notConnected
  | noNumbers
  | ran (fx : List Effect) (sent total : Nat)
  deriving Repr, DecidableEq

/-- The `POST /broadcast` handler (lines 209-290).  `jobActive` is whether
`currentBroadcast` is non-null when the request arrives.  The handler checks
only connectivity (line 225) and the resolved target count (line 234); it
performs NO check of `currentBroadcast`, so `jobActive` never influences
which branch is taken.  On the early error returns `currentBroadcast` is left
as it was; after a run the loop exit clears it (line 288).  The second
component is the value of `currentBroadcast ≠ null` after the handler
returns. -/
def broadcastStart (jobActive connected : Bool) (targets : List String)
    (p : Payload) (ok : Nat → Bool) (cut polls : Nat → Nat)
    (stop : Nat → Bool) : StartOutcome × Bool :=
  if !connected then (StartOutcome.notConnected, jobActive)
  else if targets.length = 0 then (StartOutcome.noNumbers, jobActive)
  else
    let r := broadcastRun p ok cut polls stop targets
    (StartOutcome.ran r.1 r.2 targets.length, false)

/-- The SSE event carried by an effect, if any. -/
def emitOf : Effect → Option SseEvent
  | Effect.emit ev => Option.some ev
  | _ => Option.none

/-- The SSE events contained in an effect trace, in order. -/
def eventsOf (fx : List Effect) : List SseEvent :=
  fx.filterMap emitOf

/-- The per-target progress events an unstopped run over `rest` emits,
starting at loop index `i` with counter `sent`. -/
def progressList (total : Nat) (ok : Nat → Bool) :
    List String → Nat → Nat → List SseEvent
  | [], _, _ => []
  | jid :: rest, i, sent =>
    SseEvent.progress (sent + 1) total jid (ok i) ::
      progressList total ok rest (i + 1) (sent + 1)

/-- Number of failing loop iterations among `i, i+1, ..., i+n-1`. -/
def countFails (ok : Nat → Bool) : Nat → Nat → Nat
  | _, 0 => 0
  | i, n + 1 => (if ok i then 0 else 1) + countFails ok (i + 1) n

/-- Is this SSE event a per-target failure report? -/
def isFailEvent : SseEvent → Bool
  | SseEvent.progress _ _ _ success => !success
  | _ => false

/-- The recipient an effect delivers to, if it is a transport send. -/
def effectTarget : Effect → Option String
  | Effect.sendText j _ => Option.some j
  | Effect.sendImage j _ => Option.some j
  | Effect.sendDocument j _ _ => Option.some j
  | _ => Option.none

/-- Does an effect add to, remove from, or rewrite the persisted Recipient
Directory? -/
def isDirectoryEffect : Effect → Bool
  | Effect.pruneUser _ => true
  | Effect.writeUsersFile _ => true
  | _ => false

/-- Interpret one effect against the persisted Recipient Directory. -/
def applyDirEffect (users : List String) : Effect → List String
  | Effect.pruneUser j => removeDeadJid users j
  | Effect.writeUsersFile us => us
  | _ => users

/-- Interpret an effect trace against the persisted Recipient Directory. -/
def applyDirEffects (fx : List Effect) (users : List String) : List String :=
  fx.foldl applyDirEffect users

/-- Does every transport send in the trace go to one of the allowed
recipients? -/
def sendsOnlyTo (fx : List Effect) (allowed : List String) : Bool :=
  fx.all fun f =>
    match effectTarget f with
    | Option.some j => allowed.contains j
    | Option.none => true

-- ====== spec-side definition and concrete fixtures ======

/-- The numeric choices the MAIN_MENU state itself offers, following the
words of the spec (the top-level menu lists options 1-6; this is the
spec-side notion of a "valid numeric choice for the current state", written
down to compare against the state-independent `validInputs` guard of the
source). -/
def specMainMenuChoices : List String := ["1", "2", "3", "4", "5", "6"]

/-- Oracle with every transport call succeeding. -/
def oracle0 : Oracle := ⟨fun _ => true, fun _ _ => true⟩

/-- Empty initial bot state. -/
def st0 : BotState := ⟨[], [], [], []⟩

/-- The first configured admin id (line 139). -/
def adminJid : String := "917021217553@s.whatsapp.net"

/-- A sample private customer id. -/
def custJid : String := "919876543210@s.whatsapp.net"

/-- A message content whose only carrier is `conversation`. -/
def textOnly (s : String) : MsgContent :=
  ⟨Option.some s, Option.none, Option.none, Option.none⟩

/-- A plain inbound text message. -/
def mkMsg (id jid s : String) : InboundMsg :=
  ⟨Option.some id, false, jid, Option.some (textOnly s)⟩

/-- A state with one known customer whose session sits at MAIN_MENU with the
menu active, greeted at time 1. -/
def stMenu : BotState :=
  ⟨[custJid], [(custJid, 1)], [], [(custJid, ⟨Step.mainMenu, true, false⟩)]⟩

-- ====== theorems ======

/-- C10: the Recipient Directory never contains duplicate entries: the
new-user save appends the sender only when not already present, pruning
removes every occurrence of the id and leaves an already-absent id's
directory unchanged, so both operations preserve distinctness. -/
theorem directory_distinctness :
    (∀ (users : List String) (jid : String) (p a f : Bool),
      users.Nodup → ((saveNewUser users jid p a f).1).Nodup) ∧
    (∀ (users : List String) (jid : String),
      users.Nodup → (removeDeadJid users jid).Nodup) ∧
    (∀ (users : List String) (jid : String), jid ∉ removeDeadJid users jid) ∧
    (∀ (users : List String) (jid : String),
      jid ∉ users → removeDeadJid users jid = users) ∧
    (∀ (users : List String) (jid : String) (p a f : Bool),
      jid ∈ users → (saveNewUser users jid p a f).1 = users) := by
  refine ⟨?_, ?_, ?_, ?_, ?_⟩
  · intro users jid p a f h
    unfold saveNewUser
    split
    · rename_i hc
      simp only [Bool.and_eq_true, Bool.not_eq_true'] at hc
      have hmem : jid ∉ users := by
        simpa using hc.2
      simp [List.nodup_append, h, hmem]
    · exact h
  · intro users jid h
    exact h.filter _
  · intro users jid h
    simp [removeDeadJid] at h
  · intro users jid h
    apply List.filter_eq_self.mpr
    intro u hu
    simp only [bne_iff_ne, ne_eq]
    rintro rfl
    exact h hu
  · intro users jid p a f h
    unfold saveNewUser
    split
    · rename_i hc
      simp only [Bool.and_eq_true, Bool.not_eq_true'] at hc
      have : jid ∉ users := by simpa using hc.2
      exact absurd h this
    · rfl

/-- Witness for C10 at concrete inputs. -/
theorem directory_distinctness_witness :
    ((saveNewUser ["911111111111@s.whatsapp.net"] "919876543210@s.whatsapp.net"
        true false false).1).Nodup ∧
    removeDeadJid ["911111111111@s.whatsapp.net"] "919876543210@s.whatsapp.net" =
      ["911111111111@s.whatsapp.net"] :=
  ⟨directory_distinctness.1 _ _ _ _ _ (by decide),
   directory_distinctness.2.2.2.1 _ _ (by decide)⟩

/-- C5: `sendWithRetry` makes at most `MAX_RETRIES = 2` attempts, returns
`true` on a first-attempt success with no further attempts and no backoff,
waits the fixed 2000 ms backoff after every failure except the last, and on a
target whose sends always fail makes exactly 2 attempts, prunes the id from
the directory and returns `false`. -/
theorem sendWithRetry_spec :
    (∀ (out : Nat → Bool) (jid text : String) (users : List String),
      (sendWithRetry out jid text users).attempts ≤ MAX_RETRIES) ∧
    (∀ (out : Nat → Bool) (jid text : String) (users : List String),
      out 0 = true →
      sendWithRetry out jid text users =
        ⟨true, 1, [], users, [Effect.sendText jid text]⟩) ∧
    (∀ (out : Nat → Bool) (jid text : String) (users : List String),
      out 0 = false → out 1 = false →
      sendWithRetry out jid text users =
        ⟨false, 2, [RETRY_BACKOFF_MS], removeDeadJid users jid,
          [Effect.sendText jid text, Effect.sleep RETRY_BACKOFF_MS,
           Effect.sendText jid text, Effect.pruneUser jid]⟩) ∧
    (∀ (out : Nat → Bool) (jid text : String) (users : List String),
      out 0 = false → out 1 = false →
      jid ∉ (sendWithRetry out jid text users).users) ∧
    (∀ (out : Nat → Bool) (jid text : String) (users : List String),
      (sendWithRetry out jid text users).waits =
        List.replicate ((sendWithRetry out jid text users).attempts - 1)
          RETRY_BACKOFF_MS) := by
  have hrange : ∀ (out : Nat → Bool), (List.range MAX_RETRIES).map out = [out 0, out 1] := by
    intro out; rfl
  refine ⟨?_, ?_, ?_, ?_, ?_⟩
  · intro out jid text users
    unfold sendWithRetry
    rw [hrange]
    cases h0 : out 0 <;> cases h1 : out 1 <;> simp [sendWithRetryGo, MAX_RETRIES]
  · intro out jid text users h0
    unfold sendWithRetry
    rw [hrange, h0]
    rfl
  · intro out jid text users h0 h1
    unfold sendWithRetry
    rw [hrange, h0, h1]
    rfl
  · intro out jid text users h0 h1
    unfold sendWithRetry
    rw [hrange, h0, h1]
    show jid ∉ removeDeadJid users jid
    simp [removeDeadJid]
  · intro out jid text users
    unfold sendWithRetry
    rw [hrange]
    cases h0 : out 0 <;> cases h1 : out 1 <;> rfl

/-- Witness for C5: an always-failing target is attempted exactly twice,
pruned and reported failed; a first-attempt success returns immediately. -/
theorem sendWithRetry_spec_witness :
    sendWithRetry (fun _ => false) "919876543210@s.whatsapp.net" "offer"
        ["919876543210@s.whatsapp.net"] =
      ⟨false, 2, [RETRY_BACKOFF_MS],
        removeDeadJid ["919876543210@s.whatsapp.net"] "919876543210@s.whatsapp.net",
        [Effect.sendText "919876543210@s.whatsapp.net" "offer",
         Effect.sleep RETRY_BACKOFF_MS,
         Effect.sendText "919876543210@s.whatsapp.net" "offer",
         Effect.pruneUser "919876543210@s.whatsapp.net"]⟩ ∧
    sendWithRetry (fun _ => true) "919876543210@s.whatsapp.net" "offer" [] =
      ⟨true, 1, [], [], [Effect.sendText "919876543210@s.whatsapp.net" "offer"]⟩ :=
  ⟨sendWithRetry_spec.2.2.1 _ _ _ _ rfl rfl,
   sendWithRetry_spec.2.1 _ _ _ _ rfl⟩

theorem payloadParts_shape (p : Payload) (jid : String) :
    ∀ f ∈ payloadParts p jid,
      effectTarget f = Option.some jid ∧ emitOf f = Option.none ∧
        isDirectoryEffect f = false := by
  intro f hf
  unfold payloadParts at hf
  rcases List.mem_append.mp hf with hf1 | hpdf
  · rcases List.mem_append.mp hf1 with hmsg | himg
    · rcases hm : p.message with _ | m
      · rw [hm] at hmsg; simp at hmsg
      · rw [hm] at hmsg
        by_cases he : m = ""
        · simp [he] at hmsg
        · simp [he] at hmsg
          subst hmsg
          exact ⟨rfl, rfl, rfl⟩
    · by_cases hi : p.image
      · simp [hi] at himg
        subst himg
        exact ⟨rfl, rfl, rfl⟩
      · simp [hi] at himg
  · by_cases hp : p.pdf
    · simp [hp] at hpdf
      subst hpdf
      exact ⟨rfl, rfl, rfl⟩
    · simp [hp] at hpdf

theorem eventsOf_replicate_sleep (n ms : Nat) :
    eventsOf (List.replicate n (Effect.sleep ms)) = [] := by
  apply List.filterMap_eq_nil_iff.mpr
  intro f hf
  rw [List.eq_of_mem_replicate hf]
  rfl

theorem eventsOf_append (a b : List Effect) :
    eventsOf (a ++ b) = eventsOf a ++ eventsOf b := by
  simp [eventsOf, List.filterMap_append]

theorem sendFx_subset_parts (p : Payload) (jid : String) (b : Bool) (c : Nat) :
    ∀ f ∈ (if b then payloadParts p jid else (payloadParts p jid).take c),
      f ∈ payloadParts p jid := by
  intro f hf
  split at hf
  · exact hf
  · exact List.take_subset _ _ hf

theorem broadcastLoop_unstopped (p : Payload) (ok : Nat → Bool)
    (cut polls : Nat → Nat) (stop : Nat → Bool) (total : Nat)
    (hstop : ∀ i, stop i = false) :
    ∀ (rest : List String) (i sent : Nat),
      eventsOf (broadcastLoop p ok cut polls stop total rest i sent).1 =
        progressList total ok rest i sent ∧
      (broadcastLoop p ok cut polls stop total rest i sent).2 =
        sent + rest.length := by
  intro rest
  induction rest with
  | nil => intro i sent; simp [broadcastLoop, progressList, eventsOf]
  | cons jid rest ih =>
    intro i sent
    have hparts :
        eventsOf (if ok i then payloadParts p jid
          else (payloadParts p jid).take (cut i)) = [] :=
      List.filterMap_eq_nil_iff.mpr fun f hf =>
        (payloadParts_shape p jid f (sendFx_subset_parts p jid _ _ f hf)).2.1
    have h1 := (ih (i + 1) (sent + 1)).1
    have h2 := (ih (i + 1) (sent + 1)).2
    simp only [broadcastLoop, hstop i, Bool.false_eq_true, if_false]
    constructor
    · rw [eventsOf_append, eventsOf_append, eventsOf_append,
        eventsOf_replicate_sleep, hparts, h1]
      simp [eventsOf, emitOf, progressList]
    · rw [h2]
      simp
      omega

theorem progressList_length (total : Nat) (ok : Nat → Bool) :
    ∀ (rest : List String) (i sent : Nat),
      (progressList total ok rest i sent).length = rest.length := by
  intro rest
  induction rest with
  | nil => intro i sent; rfl
  | cons jid rest ih => intro i sent; simp [progressList, ih (i + 1) (sent + 1)]

theorem progressList_countP (total : Nat) (ok : Nat → Bool) :
    ∀ (rest : List String) (i sent : Nat),
      (progressList total ok rest i sent).countP isFailEvent =
        countFails ok i rest.length := by
  intro rest
  induction rest with
  | nil => intro i sent; rfl
  | cons jid rest ih =>
    intro i sent
    simp only [progressList, List.countP_cons, ih (i + 1) (sent + 1),
      List.length_cons, countFails]
    cases h : ok i <;> simp [isFailEvent, h] <;> omega

/-- C3: an unstopped broadcast run over a resolved target list of size N
emits exactly N per-target progress events (one per target, in order, each
failure caught without aborting the loop) followed by exactly one terminal
event; the `sent` counter reaches N and exactly as many progress events carry
`success = false` as there are failing deliveries. -/
theorem broadcast_progress_events (p : Payload) (ok : Nat → Bool)
    (cut polls : Nat → Nat) (stop : Nat → Bool) (targets : List String)
    (hstop : ∀ i, stop i = false) :
    eventsOf (broadcastRun p ok cut polls stop targets).1 =
      progressList targets.length ok targets 0 0 ++
        [SseEvent.done targets.length targets.length] ∧
    (broadcastRun p ok cut polls stop targets).2 = targets.length ∧
    (progressList targets.length ok targets 0 0).length = targets.length ∧
    (progressList targets.length ok targets 0 0).countP isFailEvent =
      countFails ok 0 targets.length := by
  have h := broadcastLoop_unstopped p ok cut polls stop targets.length hstop
    targets 0 0
  refine ⟨?_, ?_, progressList_length _ _ _ _ _, progressList_countP _ _ _ _ _⟩
  · unfold broadcastRun
    rw [eventsOf_append, h.1, h.2]
    simp [eventsOf, emitOf]
  · unfold broadcastRun
    simpa using h.2

/-- Witness for C3: three targets with the second delivery failing yield
three progress events, one terminal event, `sent = 3` and one failure. -/
theorem broadcast_progress_events_witness :
    eventsOf (broadcastRun ⟨Option.some "sale", false, Option.none, false, Option.none, ""⟩
        (fun i => i != 1) (fun _ => 0) (fun _ => 0) (fun _ => false)
        ["91a@s.whatsapp.net", "91b@s.whatsapp.net", "91c@s.whatsapp.net"]).1 =
      [SseEvent.progress 1 3 "91a@s.whatsapp.net" true,
       SseEvent.progress 2 3 "91b@s.whatsapp.net" false,
       SseEvent.progress 3 3 "91c@s.whatsapp.net" true,
       SseEvent.done 3 3] ∧
    (broadcastRun ⟨Option.some "sale", false, Option.none, false, Option.none, ""⟩
        (fun i => i != 1) (fun _ => 0) (fun _ => 0) (fun _ => false)
        ["91a@s.whatsapp.net", "91b@s.whatsapp.net", "91c@s.whatsapp.net"]).2 = 3 := by
  have h := broadcast_progress_events
    ⟨Option.some "sale", false, Option.none, false, Option.none, ""⟩
    (fun i => i != 1) (fun _ => 0) (fun _ => 0) (fun _ => false)
    ["91a@s.whatsapp.net", "91b@s.whatsapp.net", "91c@s.whatsapp.net"]
    (fun _ => rfl)
  exact ⟨h.1.trans (by decide), h.2.1⟩

theorem broadcastLoop_sends (p : Payload) (ok : Nat → Bool)
    (cut polls : Nat → Nat) (stop : Nat → Bool) (total : Nat) :
    ∀ (rest : List String) (i sent : Nat) (f : Effect) (j : String),
      f ∈ (broadcastLoop p ok cut polls stop total rest i sent).1 →
      effectTarget f = Option.some j →
      ∃ k, k < rest.length ∧ rest.get? k = Option.some j ∧
        stop (i + k) = false := by
  intro rest
  induction rest with
  | nil => intro i sent f j hf; simp [broadcastLoop] at hf
  | cons jid rest ih =>
    intro i sent f j hf htgt
    simp only [broadcastLoop] at hf
    cases hsi : stop i
    · rw [hsi] at hf
      simp only [Bool.false_eq_true, if_false] at hf
      rcases List.mem_append.mp hf with hf1 | hrest
      · rcases List.mem_append.mp hf1 with hf2 | hev
        · rcases List.mem_append.mp hf2 with hsl | hsend
          · rw [List.eq_of_mem_replicate hsl] at htgt
            simp [effectTarget] at htgt
          · have := (payloadParts_shape p jid f
              (sendFx_subset_parts p jid _ _ f hsend)).1
            rw [this] at htgt
            refine ⟨0, by simp, ?_, by simpa using hsi⟩
            simpa using htgt
        · simp only [List.mem_cons, List.not_mem_nil, or_false] at hev
          rcases hev with hev | hev
          · rw [hev] at htgt; simp [effectTarget] at htgt
          · rw [hev] at htgt; simp [effectTarget] at htgt
      · rcases ih (i + 1) (sent + 1) f j hrest htgt with ⟨k, hk, hget, hstopk⟩
        refine ⟨k + 1, by simpa using hk, by simpa using hget, ?_⟩
        have : i + (k + 1) = i + 1 + k := by omega
        rw [this]
        exact hstopk
    · rw [hsi] at hf
      simp at hf

/-- C4: if during a broadcast run the `stopped` flag is observed set at every
per-target loop check from index `s` on (stop was invoked after the first `s`
targets were processed), then the run attempts no transport send to any
target beyond the first `s`: the loop exits at the next per-target boundary
and the remaining targets are never attempted. -/
theorem broadcast_stop_semantics (p : Payload) (ok : Nat → Bool)
    (cut polls : Nat → Nat) (stop : Nat → Bool) (targets : List String)
    (s : Nat) (hstop : ∀ k, s ≤ k → stop k = true) :
    (∀ f ∈ (broadcastRun p ok cut polls stop targets).1, ∀ j : String,
      effectTarget f = Option.some j → j ∈ targets.take s) ∧
    sendsOnlyTo (broadcastRun p ok cut polls stop targets).1
      (targets.take s) = true := by
  have main : ∀ f ∈ (broadcastRun p ok cut polls stop targets).1, ∀ j : String,
      effectTarget f = Option.some j → j ∈ targets.take s := by
    intro f hf j htgt
    unfold broadcastRun at hf
    rcases List.mem_append.mp hf with hf | hf
    · rcases broadcastLoop_sends p ok cut polls stop targets.length targets 0 0
        f j hf htgt with ⟨k, hk, hget, hstopk⟩
      have hks : k < s := by
        by_contra hge
        have h0 : stop (0 + k) = true := hstop _ (by omega)
        rw [h0] at hstopk
        exact Bool.true_eq_false.mp hstopk
      have : (targets.take s).get? k = Option.some j := by
        rw [List.get?_take hks]
        simpa using hget
      exact List.get?_mem this
    · simp at hf
      rw [hf] at htgt
      simp [effectTarget] at htgt
  refine ⟨main, ?_⟩
  apply List.all_eq_true.mpr
  intro f hf
  cases htgt : effectTarget f with
  | none => simp [htgt]
  | some j =>
    simp only [htgt]
    exact List.elem_iff.mpr (main f hf j htgt)

/-- Witness for C4: four targets, stop observed from check index 2 on; every
send goes to one of the first two targets. -/
theorem broadcast_stop_semantics_witness :
    sendsOnlyTo (broadcastRun
        ⟨Option.some "sale", false, Option.none, false, Option.none, ""⟩
        (fun _ => true) (fun _ => 0) (fun _ => 0) (fun k => decide (2 ≤ k))
        ["91a@s.whatsapp.net", "91b@s.whatsapp.net", "91c@s.whatsapp.net",
         "91d@s.whatsapp.net"]).1
      (["91a@s.whatsapp.net", "91b@s.whatsapp.net", "91c@s.whatsapp.net",
        "91d@s.whatsapp.net"].take 2) = true :=
  (broadcast_stop_semantics
    ⟨Option.some "sale", false, Option.none, false, Option.none, ""⟩
    (fun _ => true) (fun _ => 0) (fun _ => 0) (fun k => decide (2 ≤ k))
    ["91a@s.whatsapp.net", "91b@s.whatsapp.net", "91c@s.whatsapp.net",
     "91d@s.whatsapp.net"] 2 (fun k hk => decide_eq_true hk)).2

theorem broadcastLoop_no_directory (p : Payload) (ok : Nat → Bool)
    (cut polls : Nat → Nat) (stop : Nat → Bool) (total : Nat) :
    ∀ (rest : List String) (i sent : Nat),
      ∀ f ∈ (broadcastLoop p ok cut polls stop total rest i sent).1,
        isDirectoryEffect f = false := by
  intro rest
  induction rest with
  | nil => intro i sent f hf; simp [broadcastLoop] at hf
  | cons jid rest ih =>
    intro i sent f hf
    simp only [broadcastLoop] at hf
    cases hsi : stop i
    · rw [hsi] at hf
      simp only [Bool.false_eq_true, if_false] at hf
      rcases List.mem_append.mp hf with hf1 | hrest
      · rcases List.mem_append.mp hf1 with hf2 | hev
        · rcases List.mem_append.mp hf2 with hsl | hsend
          · rw [List.eq_of_mem_replicate hsl]; rfl
          · exact (payloadParts_shape p jid f
              (sendFx_subset_parts p jid _ _ f hsend)).2.2
        · simp only [List.mem_cons, List.not_mem_nil, or_false] at hev
          rcases hev with hev | hev <;> rw [hev] <;> rfl
      · exact ih (i + 1) (sent + 1) f hrest
    · rw [hsi] at hf
      simp at hf

theorem applyDirEffects_of_no_directory :
    ∀ (fx : List Effect), (∀ f ∈ fx, isDirectoryEffect f = false) →
      ∀ users, applyDirEffects fx users = users := by
  intro fx
  induction fx with
  | nil => intro h users; rfl
  | cons f fx ih =>
    intro h users
    have hf := h f (List.mem_cons_self f fx)
    have hstep : applyDirEffect users f = users := by
      cases f <;> first
        | rfl
        | (exfalso; simp [isDirectoryEffect] at hf)
    show applyDirEffects fx (applyDirEffect users f) = users
    rw [hstep]
    exact ih (fun g hg => h g (List.mem_cons_of_mem f hg)) users

/-- C9: a broadcast run, whatever the targets, payload, per-target outcomes
and pause/stop interleavings, performs no effect that adds to, removes from,
or rewrites the persisted Recipient Directory, so interpreting its effect
trace against any directory leaves that directory unchanged. -/
theorem broadcast_preserves_directory (p : Payload) (ok : Nat → Bool)
    (cut polls : Nat → Nat) (stop : Nat → Bool) (targets : List String)
    (users : List String) :
    (∀ f ∈ (broadcastRun p ok cut polls stop targets).1,
      isDirectoryEffect f = false) ∧
    applyDirEffects (broadcastRun p ok cut polls stop targets).1 users =
      users := by
  have hall : ∀ f ∈ (broadcastRun p ok cut polls stop targets).1,
      isDirectoryEffect f = false := by
    intro f hf
    unfold broadcastRun at hf
    rcases List.mem_append.mp hf with hf | hf
    · exact broadcastLoop_no_directory p ok cut polls stop targets.length
        targets 0 0 f hf
    · simp at hf
      rw [hf]
      rfl
  exact ⟨hall, applyDirEffects_of_no_directory _ hall users⟩

/-- C1 counterexample: with a job already active (`jobActive = true`), the
transport connected and one resolved target, `POST /broadcast` does NOT fail:
it runs a full second job (a transport send is attempted and progress plus
terminal events are emitted) and then clears the job slot.  The handler
contains no single-flight check, so the claimed `AlreadyRunning` failure
cannot occur. -/
theorem broadcast_alreadyRunning_counterexample :
    broadcastStart true true ["911111111111@s.whatsapp.net"]
        ⟨Option.some "hello", false, Option.none, false, Option.none, ""⟩
        (fun _ => true) (fun _ => 0) (fun _ => 0) (fun _ => false) =
      (StartOutcome.ran
        [Effect.sendText "911111111111@s.whatsapp.net" "hello",
         Effect.emit (SseEvent.progress 1 1 "911111111111@s.whatsapp.net" true),
         Effect.sleep 1500,
         Effect.emit (SseEvent.done 1 1)] 1 1, false) ∧
    Effect.sendText "911111111111@s.whatsapp.net" "hello" ∈
      (broadcastRun ⟨Option.some "hello", false, Option.none, false, Option.none, ""⟩
        (fun _ => true) (fun _ => 0) (fun _ => 0) (fun _ => false)
        ["911111111111@s.whatsapp.net"]).1 := by
  constructor
  · rfl
  · simp [broadcastRun, broadcastLoop, payloadParts]

/-- C1 (amended): starting a broadcast is not guarded by a single-flight
check: the outcome of `POST /broadcast` is independent of whether a job is
already active, and whenever the transport is connected and the target list
is non-empty the start runs a (possibly second, concurrent) job; on loop exit
the job slot is cleared, so a start after a completed or stopped run
succeeds the same way. -/
theorem broadcast_start_no_single_flight :
    (∀ (ja ja' connected : Bool) (targets : List String) (p : Payload)
        (ok : Nat → Bool) (cut polls : Nat → Nat) (stop : Nat → Bool),
      (broadcastStart ja connected targets p ok cut polls stop).1 =
        (broadcastStart ja' connected targets p ok cut polls stop).1) ∧
    (∀ (ja : Bool) (targets : List String) (p : Payload) (ok : Nat → Bool)
        (cut polls : Nat → Nat) (stop : Nat → Bool), targets ≠ [] →
      broadcastStart ja true targets p ok cut polls stop =
        (StartOutcome.ran (broadcastRun p ok cut polls stop targets).1
          (broadcastRun p ok cut polls stop targets).2 targets.length,
         false)) := by
  constructor
  · intro ja ja' connected targets p ok cut polls stop
    cases connected <;> by_cases h : targets.length = 0 <;>
      simp [broadcastStart, h]
  · intro ja targets p ok cut polls stop hne
    have h : ¬ targets.length = 0 := by
      have := List.length_pos.mpr hne
      omega
    simp [broadcastStart, h]

/-- Witness for C1 (amended): a start with a job active behaves exactly like
one without, and runs. -/
theorem broadcast_start_no_single_flight_witness :
    broadcastStart true true ["91a@s.whatsapp.net"]
        ⟨Option.some "hi", false, Option.none, false, Option.none, ""⟩
        (fun _ => true) (fun _ => 0) (fun _ => 0) (fun _ => false) =
      (StartOutcome.ran
        (broadcastRun ⟨Option.some "hi", false, Option.none, false, Option.none, ""⟩
          (fun _ => true) (fun _ => 0) (fun _ => 0) (fun _ => false)
          ["91a@s.whatsapp.net"]).1
        (broadcastRun ⟨Option.some "hi", false, Option.none, false, Option.none, ""⟩
          (fun _ => true) (fun _ => 0) (fun _ => 0) (fun _ => false)
          ["91a@s.whatsapp.net"]).2 1, false) :=
  broadcast_start_no_single_flight.2 true ["91a@s.whatsapp.net"]
    ⟨Option.some "hi", false, Option.none, false, Option.none, ""⟩
    (fun _ => true) (fun _ => 0) (fun _ => 0) (fun _ => false)
    (by decide)

theorem adminBranch_err (o : Oracle) (jid message : String)
    (users : List String) :
    adminBranch o jid message users =
      Except.error (JsError.referenceError "text") := rfl

/-- C2: evaluating the code at the failing input.  When the admin
`917021217553@s.whatsapp.net` sends `"/broadcast hello"` (a fresh event id,
transport healthy), the handler does NOT extract the body and broadcast:
line 428 evaluates the identifier `text`, which is block-scoped to the
greeting block (lines 378-424) and not bound at line 428, so the handler
throws a `ReferenceError` after the greeting side effects — an unhandled
failure, and no recipient iteration, no usage reply and no completion notice
happen. -/
theorem admin_broadcast_reference_error :
    handleUpsert oracle0 5 st0 true (mkMsg "3EB0A1" adminJid "/broadcast hello") =
      HandlerResult.err (JsError.referenceError "text")
        ⟨[], [(adminJid, 5)], [("3EB0A1", 5)], []⟩
        [Effect.sleep 1500, Effect.writeGreetFile [(adminJid, 5)],
         Effect.sendText adminJid greetingText] ∧
    (∀ (o : Oracle) (jid message : String) (users : List String),
      adminBranch o jid message users =
        Except.error (JsError.referenceError "text")) :=
  ⟨rfl, fun o jid message users => rfl⟩

/-- C7: an inbound event whose identifier is still in the Processed-Event Set
is discarded before any processing (no state change, no effect); a fresh
identifier is recorded with the arrival time and every subsequent event
bearing it within the retention window finds it present. -/
theorem dedup_at_most_once (o : Oracle) (t : Nat) (st : BotState)
    (msg : InboundMsg) (id : String) (c : MsgContent)
    (hid : msg.keyId = Option.some id) (hc : msg.content = Option.some c) :
    (hasActiveId st.processedMessages t id = true →
      handleUpsert o t st true msg = HandlerResult.ok st []) ∧
    (hasActiveId st.processedMessages t id = false →
      (stepEvent o st ⟨t, true, msg⟩).1.processedMessages =
        st.processedMessages ++ [(id, t)]) ∧
    (∀ (pm : List (String × Nat)) (tnext : Nat),
      tnext < t + DEDUP_RETENTION →
      hasActiveId (pm ++ [(id, t)]) tnext id = true) := by
  refine ⟨?_, ?_, ?_⟩
  · intro h
    unfold handleUpsert
    simp [hid, hc, h]
  · intro h
    unfold stepEvent handleUpsert
    simp only [hid, hc, h, Bool.not_true, Bool.false_eq_true, if_false,
      Bool.not_false, if_true, adminBranch_err]
    split <;> rename_i heq <;> repeat' (split at heq)
    all_goals cases heq
    all_goals rfl
  · intro pm tnext h
    simp [hasActiveId, List.any_append, h]

/-- Witness for C7: an id recorded at time 5 is still active at time 100, and
the duplicate event is discarded with no state change and no effects. -/
theorem dedup_at_most_once_witness :
    hasActiveId [("3EB0A1", 5)] 100 "3EB0A1" = true ∧
    handleUpsert oracle0 100 ⟨[], [], [("3EB0A1", 5)], []⟩ true
        (mkMsg "3EB0A1" custJid "hello there") =
      HandlerResult.ok ⟨[], [], [("3EB0A1", 5)], []⟩ [] :=
  ⟨rfl, (dedup_at_most_once oracle0 100 ⟨[], [], [("3EB0A1", 5)], []⟩
      (mkMsg "3EB0A1" custJid "hello there") "3EB0A1" (textOnly "hello there")
      rfl rfl).1 rfl⟩

/-- C8 counterexample: `"0"` is not one of the numeric choices the MAIN_MENU
state offers, yet it does NOT deactivate the menu: the state-independent
`validInputs` guard admits it, the MAIN_MENU switch has no case for it, and
the session is left unchanged with `menuActive = true` (a subsequent valid
choice still works), contradicting the claim that any input outside the
current state's valid choices deactivates the session. -/
theorem menu_invalid_choice_counterexample :
    "0" ∉ specMainMenuChoices ∧
    menuLogic custJid (Option.some ⟨Step.mainMenu, true, false⟩) "0" =
      (⟨Step.mainMenu, true, false⟩, []) ∧
    (stepEvent oracle0 stMenu ⟨7, true, mkMsg "3EB0B2" custJid "0"⟩).1.userState =
      [(custJid, ⟨Step.mainMenu, true, false⟩)] ∧
    menuLogic custJid (Option.some ⟨Step.mainMenu, true, false⟩) "9" =
      (⟨Step.none, false, false⟩, []) :=
  ⟨by decide, rfl, rfl, rfl⟩

/-- C8 (amended): the deactivation guard is the fixed input set `validInputs`
("0"-"6"), not the per-state choice set.  While `menuActive = true`, a
non-starter message outside `validInputs` deactivates the menu
(`menuActive := false`, `step := none`) with no reply; afterwards, while
`menuActive = false`, every non-starter message is ignored by the menu logic
(session unchanged, no reply) until a starter keyword reactivates MAIN_MENU;
and a `validInputs` message with no case in the current state (choice "0" in
MAIN_MENU) leaves the session unchanged with no reply. -/
theorem menu_invalid_input_deactivates (s : Session) (jid m : String)
    (hactive : s.menuActive = true) (hnv : m ∉ validInputs)
    (hns : m ∉ menuStarters) :
    menuLogic jid (Option.some s) m = (⟨Step.none, false, s.busy⟩, []) ∧
    (∀ (s2 : Session) (m2 : String), s2.menuActive = false →
      m2 ∉ menuStarters → menuLogic jid (Option.some s2) m2 = (s2, [])) ∧
    (∀ m3 ∈ menuStarters,
      menuLogic jid (Option.some s) m3 =
        (⟨Step.mainMenu, true, false⟩, [Effect.sendText jid mainMenuText])) := by
  refine ⟨?_, ?_, ?_⟩
  · unfold menuLogic
    simp [hns, hnv, hactive]
  · intro s2 m2 hinactive hns2
    unfold menuLogic
    simp [hns2, hinactive]
  · intro m3 hm3
    unfold menuLogic
    simp [hm3]

/-- Witness for C8 (amended): with the menu active at MAIN_MENU, the reply
"9" deactivates the session with no reply, and the follow-up "3" is then
ignored. -/
theorem menu_invalid_input_deactivates_witness :
    menuLogic custJid (Option.some ⟨Step.mainMenu, true, false⟩) "9" =
      (⟨Step.none, false, false⟩, []) ∧
    menuLogic custJid (Option.some ⟨Step.none, false, false⟩) "3" =
      (⟨Step.none, false, false⟩, []) := by
  have h := menu_invalid_input_deactivates ⟨Step.mainMenu, true, false⟩
    custJid "9" rfl (by decide) (by decide)
  exact ⟨h.1, h.2.1 ⟨Step.none, false, false⟩ "3" rfl (by decide)⟩

theorem lookupA_cons {α : Type} (p : String × α) (l : List (String × α))
    (j : String) :
    lookupA (p :: l) j = if p.1 == j then Option.some p.2 else lookupA l j := by
  by_cases h : p.1 == j <;>
    simp [lookupA, List.find?_cons_of_pos, List.find?_cons_of_neg, h]

theorem lookupA_map_update_self {α : Type} (l : List (String × α)) (k : String)
    (v : α) :
    lookupA (l.map fun q => if q.1 == k then (k, v) else q) k =
      if l.any (fun q => q.1 == k) then Option.some v else Option.none := by
  induction l with
  | nil => simp [lookupA]
  | cons p l ih =>
    by_cases hp : p.1 = k
    · simp [List.map_cons, hp, lookupA_cons]
    · have hb : (p.1 == k) = false := by
        simp only [beq_eq_false_iff_ne, ne_eq]
        exact hp
      simp only [List.map_cons, List.any_cons, hb, Bool.false_eq_true, if_false,
        Bool.false_or]
      rw [lookupA_cons]
      simp only [hb, Bool.false_eq_true, if_false]
      exact ih

theorem lookupA_map_update_ne {α : Type} (l : List (String × α)) (k j : String)
    (v : α) (hne : j ≠ k) :
    lookupA (l.map fun q => if q.1 == k then (k, v) else q) j = lookupA l j := by
  have hkj : (k == j) = false := by
    simp only [beq_eq_false_iff_ne, ne_eq]
    exact fun h => hne h.symm
  induction l with
  | nil => simp [lookupA]
  | cons p l ih =>
    simp only [beq_iff_eq] at ih
    have hkj2 : ¬ k = j := fun h => hne h.symm
    by_cases hp : p.1 = k
    · have hpj : ¬ p.1 = j := by
        rw [hp]
        exact hkj2
      simp [List.map_cons, hp, lookupA_cons, hpj, ih, hkj2]
    · by_cases hpj : p.1 = j <;>
        simp [List.map_cons, hp, lookupA_cons, hpj, ih, hkj2, hne]

theorem lookupA_append {α : Type} (l l2 : List (String × α)) (j : String) :
    lookupA (l ++ l2) j = ((lookupA l j).or (lookupA l2 j)) := by
  unfold lookupA
  rw [List.find?_append]
  cases l.find? (fun p => p.1 == j) <;> simp

theorem lookupA_insertA_self {α : Type} (l : List (String × α)) (k : String)
    (v : α) : lookupA (insertA l k v) k = Option.some v := by
  unfold insertA
  by_cases h : l.any (fun q => q.1 == k)
  · simp only [h, if_true]
    rw [lookupA_map_update_self, h]
    simp
  · simp only [h, Bool.false_eq_true, if_false]
    rw [lookupA_append]
    have hnone : lookupA l k = Option.none := by
      unfold lookupA
      rw [List.find?_eq_none.mpr]
      · rfl
      · intro x hx hc
        exact h (List.any_eq_true.mpr ⟨x, hx, hc⟩)
    rw [hnone]
    simp [lookupA_cons]

theorem lookupA_insertA_ne {α : Type} (l : List (String × α)) (k j : String)
    (v : α) (hne : j ≠ k) : lookupA (insertA l k v) j = lookupA l j := by
  have hkj : ((k, v).1 == j) = false := by
    simp only [beq_eq_false_iff_ne, ne_eq]
    exact fun h => hne h.symm
  unfold insertA
  by_cases h : l.any (fun q => q.1 == k)
  · simp only [h, if_true]
    exact lookupA_map_update_ne l k j v hne
  · simp only [h, Bool.false_eq_true, if_false]
    rw [lookupA_append]
    have hsingle : lookupA [(k, v)] j = Option.none := by
      rw [lookupA_cons, if_neg]
      · rfl
      · simp only [hkj]
        exact Bool.false_ne_true
    rw [hsingle]
    cases lookupA l j <;> simp

theorem lookupA_mem {α : Type} (l : List (String × α)) (j : String) (v : α)
    (h : lookupA l j = Option.some v) : (j, v) ∈ l := by
  unfold lookupA at h
  cases hf : l.find? (fun p => p.1 == j) with
  | none => rw [hf] at h; simp at h
  | some p =>
    rw [hf] at h
    have h2 : p.2 = v := by
      simpa using h
    have hm := List.mem_of_find?_eq_some hf
    have hp := List.find?_some hf
    have hpj : p.1 = j := by simpa using hp
    have : p = (j, v) := by
      cases p
      simp only [Prod.mk.injEq]
      exact ⟨hpj, h2⟩
    rwa [this] at hm

theorem isGreet_sendText_ne (j jid txt : String) (h : txt ≠ greetingText) :
    isGreet j (Effect.sendText jid txt) = false := by
  unfold isGreet
  apply beq_eq_false_iff_ne.mpr
  intro hcon
  injection hcon with h1 h2
  exact h h2

theorem isGreet_sendText_ne_jid (j jid txt : String) (h : jid ≠ j) :
    isGreet j (Effect.sendText jid txt) = false := by
  unfold isGreet
  apply beq_eq_false_iff_ne.mpr
  intro hcon
  injection hcon with h1 h2
  exact h h1

theorem filter_singleton_sendText (j jid txt : String) (h : txt ≠ greetingText) :
    ([Effect.sendText jid txt] : List Effect).filter (isGreet j) = [] := by
  simp [List.filter_cons, isGreet_sendText_ne j jid txt h]

theorem pdfDocs_filter (jid j : String) (files : List (String × String)) :
    (files.foldr (fun f acc =>
        Effect.sendDocument jid f.2 Option.none :: Effect.sleep 1500 :: acc)
      []).filter (isGreet j) = [] := by
  induction files with
  | nil => rfl
  | cons f fs ih =>
    simp only [List.foldr_cons, List.filter_cons]
    rw [show isGreet j (Effect.sendDocument jid f.2 Option.none) = false from rfl,
      show isGreet j (Effect.sleep 1500) = false from rfl]
    simpa using ih

theorem pdfBundleFx_filter (jid j : String) (files : List (String × String))
    (hne : bundleAnnounce files.length ≠ greetingText) :
    (pdfBundleFx jid files).filter (isGreet j) = [] := by
  unfold pdfBundleFx
  rw [List.filter_cons_of_neg]
  · exact pdfDocs_filter jid j files
  · rw [isGreet_sendText_ne j jid _ hne]
    exact Bool.false_ne_true

theorem menuLogic_no_greeting (jid j m : String) (sess : Option Session) :
    ((menuLogic jid sess m).2).filter (isGreet j) = [] := by
  unfold menuLogic
  dsimp only
  repeat' split
  all_goals (first
    | rfl
    | (apply filter_singleton_sendText j jid
       decide))

theorem saveNewUser_filter (users : List String) (jid : String)
    (p a f : Bool) (j : String) :
    ((saveNewUser users jid p a f).2).filter (isGreet j) = [] := by
  unfold saveNewUser
  split
  · simp [List.filter_cons, isGreet]
  · rfl

theorem filter_writeGreet (j : String) (g1 : List (String × Nat))
    (rest : List Effect) :
    (Effect.writeGreetFile g1 :: rest).filter (isGreet j) =
      rest.filter (isGreet j) := by
  apply List.filter_cons_of_neg
  rw [show isGreet j (Effect.writeGreetFile g1) = false from rfl]
  exact Bool.false_ne_true

theorem filter_greet_self (j : String) :
    ([Effect.sendText j greetingText] : List Effect).filter (isGreet j) =
      [Effect.sendText j greetingText] := by
  rw [List.filter_cons_of_pos]
  · rfl
  · unfold isGreet
    exact beq_self_eq_true _

theorem greetingStep_char (t : Nat) (jid : String) (content : MsgContent)
    (g : List (String × Nat)) (j : String) :
    (((greetingStep t jid content g).2).filter (isGreet j) = [] ∧
      (lookupA (greetingStep t jid content g).1 j = lookupA g j ∨
       lookupA (greetingStep t jid content g).1 j = Option.some t)) ∨
    (((greetingStep t jid content g).2).filter (isGreet j) =
        [Effect.sendText j greetingText] ∧
      lookupA (greetingStep t jid content g).1 j = Option.some t ∧
      ∀ ts, lookupA g j = Option.some ts →
        ts = 0 ∨ ts + GREETING_COOLDOWN ≤ t) := by
  have hC : 0 < GREETING_COOLDOWN := by decide
  have hmap : ∀ v : Nat, lookupA (insertA g jid v) j = lookupA g j ∨
      (j = jid ∧ lookupA (insertA g jid v) j = Option.some v) := by
    intro v
    by_cases hj : j = jid
    · subst hj
      exact Or.inr ⟨rfl, lookupA_insertA_self g j v⟩
    · exact Or.inl (lookupA_insertA_ne g jid j v hj)
  unfold greetingStep
  dsimp only
  by_cases hst :
      menuStarters.contains (jsTrim (jsToLower (msgText content))) = true
  · rw [if_pos hst]
    left
    refine ⟨filter_writeGreet j _ [], ?_⟩
    rcases hmap t with h | ⟨_, h⟩
    · exact Or.inl h
    · exact Or.inr h
  · rw [if_neg hst]
    have hsendfx :
        ([Effect.writeGreetFile (insertA g jid t),
          Effect.sendText jid greetingText] : List Effect).filter (isGreet j) =
          if j = jid then [Effect.sendText j greetingText] else [] := by
      rw [filter_writeGreet]
      by_cases hj : j = jid
      · subst hj
        rw [if_pos rfl]
        exact filter_greet_self j
      · rw [if_neg hj]
        rw [List.filter_cons_of_neg, List.filter_nil]
        rw [isGreet_sendText_ne_jid j jid _ (fun h => hj h.symm)]
        exact Bool.false_ne_true
    cases hl : lookupA g jid with
    | none =>
      dsimp only
      by_cases hj : j = jid
      · subst hj
        right
        refine ⟨by rw [hsendfx, if_pos rfl], lookupA_insertA_self g j t, ?_⟩
        intro ts hts
        rw [hts] at hl
        cases hl
      · left
        refine ⟨by rw [hsendfx, if_neg hj], Or.inl (lookupA_insertA_ne g jid j t hj)⟩
    | some ts =>
      dsimp only
      by_cases hcond : (ts == 0 || decide (GREETING_COOLDOWN ≤ t - ts)) = true
      · rw [if_pos hcond]
        by_cases hj : j = jid
        · subst hj
          right
          refine ⟨by rw [hsendfx, if_pos rfl], lookupA_insertA_self g j t, ?_⟩
          intro ts2 hts2
          rw [hl] at hts2
          injection hts2 with hts2
          subst hts2
          simp only [Bool.or_eq_true, beq_iff_eq, decide_eq_true_eq] at hcond
          rcases hcond with hz | hcd
          · exact Or.inl hz
          · right
            omega
        · left
          refine ⟨by rw [hsendfx, if_neg hj], Or.inl (lookupA_insertA_ne g jid j t hj)⟩
      · rw [if_neg hcond]
        left
        exact ⟨rfl, Or.inl rfl⟩

theorem filter_sleep_singleton (j : String) (n : Nat) :
    ([Effect.sleep n] : List Effect).filter (isGreet j) = [] := rfl

theorem stepEvent_greet (o : Oracle) (st : BotState) (e : TimedEvent)
    (j : String) :
    (((stepEvent o st e).2).filter (isGreet j) = [] ∧
      (lookupA (stepEvent o st e).1.greetingTimestamps j =
          lookupA st.greetingTimestamps j ∨
       lookupA (stepEvent o st e).1.greetingTimestamps j =
          Option.some e.time)) ∨
    (((stepEvent o st e).2).filter (isGreet j) =
        [Effect.sendText j greetingText] ∧
      lookupA (stepEvent o st e).1.greetingTimestamps j = Option.some e.time ∧
      ∀ ts, lookupA st.greetingTimestamps j = Option.some ts →
        ts = 0 ∨ ts + GREETING_COOLDOWN ≤ e.time) := by
  obtain ⟨t, notify, msg⟩ := e
  obtain ⟨keyId, fromMe, remoteJid, content⟩ := msg
  cases notify with
  | false => exact Or.inl ⟨rfl, Or.inl rfl⟩
  | true =>
  cases keyId with
  | none => exact Or.inl ⟨rfl, Or.inl rfl⟩
  | some id =>
  cases content with
  | none => exact Or.inl ⟨rfl, Or.inl rfl⟩
  | some c =>
  unfold stepEvent handleUpsert
  dsimp only
  simp only [adminBranch_err]
  split <;> rename_i heq <;> repeat' (split at heq)
  all_goals cases heq
  all_goals (first
    | exact Or.inl ⟨rfl, Or.inl rfl⟩
    | (left
       refine ⟨?_, Or.inl rfl⟩
       simp only [List.filter_append, saveNewUser_filter, filter_sleep_singleton,
         menuLogic_no_greeting, List.append_nil, List.nil_append])
    | (rcases greetingStep_char t remoteJid c st.greetingTimestamps j with
        ⟨hf, hm⟩ | ⟨hf, hm, hcool⟩
       · left
         refine ⟨?_, ?_⟩
         · simp only [List.filter_append, saveNewUser_filter,
             filter_sleep_singleton, menuLogic_no_greeting, hf,
             List.append_nil, List.nil_append]
         · exact hm
       · right
         refine ⟨?_, hm, hcool⟩
         simp only [List.filter_append, saveNewUser_filter,
           filter_sleep_singleton, menuLogic_no_greeting, hf,
           List.append_nil, List.nil_append]))

theorem greetTimes_append (j : String) (a b : List (Nat × Effect)) :
    greetTimes j (a ++ b) = greetTimes j a ++ greetTimes j b := by
  simp [greetTimes, List.filter_append]

theorem greetTimes_map_const (j : String) (t : Nat) (fx : List Effect) :
    greetTimes j (fx.map fun f => (t, f)) =
      (fx.filter (isGreet j)).map (fun _ => t) := by
  unfold greetTimes
  rw [List.filter_map, List.map_map]
  rfl

theorem runEvents_chain (o : Oracle) (j : String) :
    ∀ (evs : List TimedEvent) (st : BotState) (lo : Option Nat),
      evs.Pairwise (fun a b => a.time ≤ b.time) →
      (∀ e ∈ evs, 0 < e.time) →
      (∀ g, lo = Option.some g →
        0 < g ∧ (∀ e ∈ evs, g ≤ e.time) ∧
          ∃ ts, lookupA st.greetingTimestamps j = Option.some ts ∧
            g ≤ ts ∧ 0 < ts) →
      (match lo with
       | Option.none =>
           List.Chain' (fun a b => a + GREETING_COOLDOWN ≤ b)
             (greetTimes j (runEvents o st evs).2)
       | Option.some g =>
           List.Chain (fun a b => a + GREETING_COOLDOWN ≤ b) g
             (greetTimes j (runEvents o st evs).2)) := by
  intro evs
  induction evs with
  | nil =>
    intro st lo hsort hpos hinv
    cases lo with
    | none => simp [runEvents, greetTimes]
    | some g => simp [runEvents, greetTimes]
  | cons e rest ih =>
    intro st lo hsort hpos hinv
    have hgt : greetTimes j (runEvents o st (e :: rest)).2 =
        ((stepEvent o st e).2.filter (isGreet j)).map (fun _ => e.time) ++
          greetTimes j (runEvents o (stepEvent o st e).1 rest).2 := by
      show greetTimes j
        ((stepEvent o st e).2.map (fun f => (e.time, f)) ++
          (runEvents o (stepEvent o st e).1 rest).2) = _
      rw [greetTimes_append, greetTimes_map_const]
    have hsort2 := (List.pairwise_cons.mp hsort).2
    have hhead := (List.pairwise_cons.mp hsort).1
    have hpos2 : ∀ x ∈ rest, 0 < x.time := fun x hx =>
      hpos x (List.mem_cons_of_mem e hx)
    have hpose : 0 < e.time := hpos e (List.mem_cons_self e rest)
    rcases stepEvent_greet o st e j with ⟨hf, hm⟩ | ⟨hf, hm, hcool⟩
    · -- no greeting on this event
      have hinv2 : ∀ g, lo = Option.some g →
          0 < g ∧ (∀ x ∈ rest, g ≤ x.time) ∧
            ∃ ts, lookupA (stepEvent o st e).1.greetingTimestamps j =
              Option.some ts ∧ g ≤ ts ∧ 0 < ts := by
        intro g hg
        obtain ⟨hg0, hgb, ts, hts, hgts, hts0⟩ := hinv g hg
        refine ⟨hg0, fun x hx => hgb x (List.mem_cons_of_mem e hx), ?_⟩
        rcases hm with hm | hm
        · exact ⟨ts, hm ▸ hts, hgts, hts0⟩
        · exact ⟨e.time, hm, hgb e (List.mem_cons_self e rest), hpose⟩
      have := ih (stepEvent o st e).1 lo hsort2 hpos2 hinv2
      rw [hgt, hf]
      simpa using this
    · -- greeting sent at time e.time
      have hinv2 : ∀ g, Option.some e.time = Option.some g →
          0 < g ∧ (∀ x ∈ rest, g ≤ x.time) ∧
            ∃ ts, lookupA (stepEvent o st e).1.greetingTimestamps j =
              Option.some ts ∧ g ≤ ts ∧ 0 < ts := by
        intro g hg
        injection hg with hg
        subst hg
        exact ⟨hpose, fun x hx => hhead x hx, e.time, hm, le_refl _, hpose⟩
      have htail := ih (stepEvent o st e).1 (Option.some e.time) hsort2 hpos2 hinv2
      rw [hgt, hf]
      cases lo with
      | none =>
        show List.Chain (fun a b => a + GREETING_COOLDOWN ≤ b) e.time
          (greetTimes j (runEvents o (stepEvent o st e).1 rest).2)
        simpa using htail
      | some g =>
        obtain ⟨hg0, hgb, ts, hts, hgts, hts0⟩ := hinv g rfl
        have hgap : g + GREETING_COOLDOWN ≤ e.time := by
          rcases hcool ts hts with hz | hcd
          · omega
          · omega
        exact List.Chain.cons hgap (by simpa using htail)

/-- C6: at most one greeting per recipient within any cooldown window.  Over
any sequence of inbound events with nondecreasing positive arrival times
(from any starting state), consecutive greeting sends to the same recipient
are at least `GREETING_COOLDOWN` apart; a greeting is sent only when no
timestamp is recorded for the id (all recorded timestamps being positive) or
the recorded timestamp has aged past the cooldown, and the timestamp is set
to now whenever a greeting is sent; and a menu-starter message records the
timestamp without sending a greeting. -/
theorem greeting_cooldown (o : Oracle) (j : String) :
    (∀ (evs : List TimedEvent) (st : BotState),
      evs.Pairwise (fun a b => a.time ≤ b.time) →
      (∀ e ∈ evs, 0 < e.time) →
      List.Chain' (fun a b => a + GREETING_COOLDOWN ≤ b)
        (greetTimes j (runEvents o st evs).2)) ∧
    (∀ (t : Nat) (c : MsgContent) (g : List (String × Nat)),
      (∀ p ∈ g, 0 < p.2) →
      Effect.sendText j greetingText ∈ (greetingStep t j c g).2 →
      ((lookupA g j = Option.none ∨
        ∃ ts, lookupA g j = Option.some ts ∧ GREETING_COOLDOWN ≤ t - ts) ∧
       lookupA (greetingStep t j c g).1 j = Option.some t)) ∧
    (∀ (t : Nat) (c : MsgContent) (g : List (String × Nat)),
      jsTrim (jsToLower (msgText c)) ∈ menuStarters →
      greetingStep t j c g =
        (insertA g j t, [Effect.writeGreetFile (insertA g j t)])) := by
  refine ⟨?_, ?_, ?_⟩
  · intro evs st hsort hpos
    have h := runEvents_chain o j evs st Option.none hsort hpos
      (fun g hg => by cases hg)
    simpa using h
  · intro t c g hposg hmem
    unfold greetingStep at hmem ⊢
    dsimp only at hmem ⊢
    by_cases hst :
        menuStarters.contains (jsTrim (jsToLower (msgText c))) = true
    · rw [if_pos hst] at hmem
      simp at hmem
    · rw [if_neg hst] at hmem ⊢
      cases hl : lookupA g j with
      | none =>
        simp only [hl] at hmem ⊢
        exact ⟨Or.inl trivial, lookupA_insertA_self g j t⟩
      | some ts =>
        simp only [hl] at hmem ⊢
        by_cases hcond : (ts == 0 || decide (GREETING_COOLDOWN ≤ t - ts)) = true
        · rw [if_pos hcond] at hmem ⊢
          have hts0 : 0 < ts := hposg (j, ts) (lookupA_mem g j ts hl)
          simp only [Bool.or_eq_true, beq_iff_eq, decide_eq_true_eq] at hcond
          refine ⟨Or.inr ⟨ts, rfl, ?_⟩, lookupA_insertA_self g j t⟩
          rcases hcond with hz | hcd
          · omega
          · exact hcd
        · rw [if_neg hcond] at hmem
          simp at hmem
  · intro t c g hstart
    unfold greetingStep
    dsimp only
    rw [if_pos (by simpa using hstart)]

set_option maxRecDepth 4096 in
/-- Witness for C6: a first contact at time 1000 is greeted; a second message
within the window (time 2000) is not; a menu starter records the timestamp
silently. -/
theorem greeting_cooldown_witness :
    List.Chain' (fun a b => a + GREETING_COOLDOWN ≤ b)
      (greetTimes custJid (runEvents oracle0 st0
        [⟨1000, true, mkMsg "W1" custJid "good morning"⟩,
         ⟨2000, true, mkMsg "W2" custJid "price please"⟩]).2) ∧
    greetingStep 5000 custJid (textOnly "menu") [] =
      (insertA [] custJid 5000,
       [Effect.writeGreetFile (insertA [] custJid 5000)]) :=
  ⟨(greeting_cooldown oracle0 custJid).1
      [⟨1000, true, mkMsg "W1" custJid "good morning"⟩,
       ⟨2000, true, mkMsg "W2" custJid "price please"⟩] st0
      (by decide) (by decide),
   (greeting_cooldown oracle0 custJid).2.2 5000 (textOnly "menu") []
      (by decide)⟩

end Trinity
